import Mathlib

/-!
Verification of the HTTP connection core of aws-c-http against its
natural-language specification.

The development shallowly embeds the two C source files
`src/source/strutil.c` and `src/source/connection.c`:

* byte cursors become `List Nat` (one entry per byte, each < 256 in practice);
* `uint64_t` arithmetic is `Nat` arithmetic taken `% 2 ^ 64` exactly where the
  C code can wrap;
* fallible functions returning `int` + thread-local last-error become
  `Except AwsError _`;
* the callback-driven connection code becomes explicit state passing: each
  C callback is a function from its inputs and the relevant mutable state to
  the updated state plus the list of externally visible actions (user
  callbacks invoked, channel operations requested) in the order the C code
  performs them.
-/

set_option maxRecDepth 16384

deriving instance DecidableEq for Except

namespace AwsCHttp

/-- Error identities raised via `aws_raise_error` by the embedded code.
The numeric values of these error codes live in aws-c-common and are not
needed; only their identity matters. -/
inductive AwsError where
  | invalidArgument
  | invalidState
  | overflowDetected
  deriving DecidableEq, Repr

/-- Bytes of an ASCII string literal. -/
def asciiOf (s : String) : List Nat :=
  s.data.map Char.toNat

/-! ### src/source/strutil.c -/

/-- The 256-entry lookup table `s_ascii_to_num_table` from src/source/strutil.c:
48 invalid entries, then `'0'..'9' → 0..9`, 7 invalid entries,
`'A'..'F' → 0xA..0xF`, 26 invalid entries, `'a'..'f' → 0xa..0xf`, and
153 invalid entries; invalid characters have value 255. -/
def s_ascii_to_num_table : List Nat :=
  List.replicate 48 255 ++
  [0, 1, 2, 3, 4, 5, 6, 7, 8, 9] ++
  List.replicate 7 255 ++
  [0xA, 0xB, 0xC, 0xD, 0xE, 0xF] ++
  List.replicate 26 255 ++
  [0xa, 0xb, 0xc, 0xd, 0xe, 0xf] ++
  List.replicate 153 255

/-- Indexing into `s_ascii_to_num_table` (a `uint8_t` index never exceeds 255,
the table has 256 entries; out-of-range defaults never arise on real bytes). -/
def asciiToNum (c : Nat) : Nat :=
  s_ascii_to_num_table.getD c 255

/-- The loop body of `s_read_unsigned` (src/source/strutil.c:52-70), reading
digits from left to right.  `val *= base` and `val += cval` are `uint64_t`
operations, hence the `% 2 ^ 64`; the C code tries to detect wrap-around by
comparing the updated `val` against `prev_val`. -/
def readUnsignedLoop (base : Nat) : List Nat → Nat → Except AwsError Nat
  | [], val => .ok val
  | c :: rest, val =>
    let cval := asciiToNum c
    if base ≤ cval then
      .error AwsError.invalidArgument
    else
      let prev_val := val
      let val1 := val * base % 2 ^ 64
      if val1 < prev_val then
        .error AwsError.overflowDetected
      else
        let val2 := (val1 + cval) % 2 ^ 64
        if val2 < prev_val then
          .error AwsError.overflowDetected
        else
          readUnsignedLoop base rest val2

/-- `s_read_unsigned` (src/source/strutil.c:43-74). -/
def s_read_unsigned (cursor : List Nat) (base : Nat) : Except AwsError Nat :=
  if cursor.length = 0 then
    .error AwsError.invalidArgument
  else
    readUnsignedLoop base cursor 0

/-- `aws_strutil_read_unsigned_num` (src/source/strutil.c:76-78). -/
def aws_strutil_read_unsigned_num (cursor : List Nat) : Except AwsError Nat :=
  s_read_unsigned cursor 10

/-- `aws_strutil_read_unsigned_hex` (src/source/strutil.c:80-82). -/
def aws_strutil_read_unsigned_hex (cursor : List Nat) : Except AwsError Nat :=
  s_read_unsigned cursor 16

/-- Mathematical value of a digit string under `s_ascii_to_num_table`,
reading left to right (what the loop computes absent any wrap-around). -/
def digitsValue (base : Nat) (cursor : List Nat) : Nat :=
  cursor.foldl (fun acc c => acc * base + asciiToNum c) 0

/-- `s_http_whitespace_table` (src/source/strutil.c:107-110): true exactly on
`' '` (32) and `'\t'` (9). -/
def s_http_whitespace_table (c : Nat) : Bool :=
  c == 32 || c == 9

/-- `s_trim` (src/source/strutil.c:84-105): the first loop advances past
leading bytes in the table, the second loop shortens the cursor while the
last byte is in the table. -/
def s_trim (cursor : List Nat) (trim_table : Nat → Bool) : List Nat :=
  List.rdropWhile trim_table (cursor.dropWhile trim_table)

/-- `aws_strutil_trim_http_whitespace` (src/source/strutil.c:112-114). -/
def aws_strutil_trim_http_whitespace (cursor : List Nat) : List Nat :=
  s_trim cursor s_http_whitespace_table

/-! ### src/source/connection.c -/

/-- `AWS_ERROR_SUCCESS` (aws-c-common): the zero error code. -/
def AWS_ERROR_SUCCESS : Nat := 0

/-- `AWS_ERROR_HTTP_CONNECTION_CLOSED` from src/include/aws/http/http.h
(`AWS_ERROR_HTTP_UNKNOWN = 0x0800` plus 10). -/
def AWS_ERROR_HTTP_CONNECTION_CLOSED : Nat := 0x080A

/-- `AWS_ERROR_HTTP_REACTION_REQUIRED` from src/include/aws/http/http.h
(`AWS_ERROR_HTTP_UNKNOWN = 0x0800` plus 13). -/
def AWS_ERROR_HTTP_REACTION_REQUIRED : Nat := 0x080D

/-- `AWS_ERROR_UNKNOWN` is declared in aws-c-common, outside this repository;
its exact numeric value is irrelevant here — the code only relies on it being
a fixed non-zero code — so it is represented by a fixed non-zero constant. -/
def AWS_ERROR_UNKNOWN : Nat := 42

/-- `enum aws_http_version` from src/include/aws/http/http.h. -/
inductive AwsHttpVersion where
  | unknown
  | http1_0
  | http1_1
  | http2
  deriving DecidableEq, Repr

/-- `s_alpn_protocol_http_1_1` (src/source/connection.c:44). -/
def s_alpn_protocol_http_1_1 : List Nat := asciiOf "http/1.1"

/-- `s_alpn_protocol_http_2` (src/source/connection.c:45). -/
def s_alpn_protocol_http_2 : List Nat := asciiOf "h2"

/-- The version-determination fragment of `s_connection_new`
(src/source/connection.c:112-140): `version` starts as 1.1; only on a TLS
channel with a non-empty negotiated ALPN protocol is it compared against the
two known protocol strings, any unrecognized string falling back to 1.1. -/
def s_connection_determine_version (is_using_tls : Bool) (protocol : List Nat) :
    AwsHttpVersion :=
  let version := AwsHttpVersion.http1_1
  if is_using_tls then
    if protocol.length ≠ 0 then
      if protocol = s_alpn_protocol_http_1_1 then
        AwsHttpVersion.http1_1
      else if protocol = s_alpn_protocol_http_2 then
        AwsHttpVersion.http2
      else
        AwsHttpVersion.http1_1
    else
      version
  else
    version

/-- The `server_data` callback block of a server connection
(`struct aws_http_connection`); callbacks are opaque non-null pointers,
modelled as `Option Nat` (`none` = `NULL`). -/
structure ServerData where
  on_incoming_request : Option Nat
  on_shutdown : Option Nat
  deriving DecidableEq, Repr

/-- The fields of `struct aws_http_connection` the verified operations touch.
`server_data = none` on a client connection; exactly one of
`client_data`/`server_data` is populated. -/
structure HttpConnection where
  refcount : Nat
  user_data : Nat
  client_data : Bool
  server_data : Option ServerData
  deriving DecidableEq, Repr

/-- Channel operations requested by `aws_http_connection_release`. -/
inductive ChannelOp where
  | shutdown (error_code : Nat)
  | releaseHold
  deriving DecidableEq, Repr

/-- `aws_http_connection_release` (src/source/connection.c:247-269):
`aws_atomic_fetch_sub(&connection->refcount, 1)` returns the pre-decrement
value; only when it was 1 does the code shut the channel down (with
`AWS_ERROR_SUCCESS`) and release its hold on the channel. -/
def aws_http_connection_release (connection : HttpConnection) :
    HttpConnection × List ChannelOp :=
  let prev_refcount := connection.refcount
  let connection1 := { connection with refcount := connection.refcount - 1 }
  if prev_refcount = 1 then
    (connection1, [ChannelOp.shutdown AWS_ERROR_SUCCESS, ChannelOp.releaseHold])
  else
    (connection1, [])

/-- `struct aws_http_server_connection_options`. -/
structure ServerConnectionOptions where
  connection_user_data : Nat
  on_incoming_request : Option Nat
  on_shutdown : Option Nat
  deriving DecidableEq, Repr

/-- `aws_http_connection_configure_server` (src/source/connection.c:799-826).
Returns the raised error (or `.ok`) together with the post-call connection;
the three guard clauses mirror the C checks in order. -/
def aws_http_connection_configure_server (connection : Option HttpConnection)
    (options : Option ServerConnectionOptions) :
    Except AwsError Unit × Option HttpConnection :=
  match connection, options with
  | none, _ => (.error AwsError.invalidArgument, connection)
  | some _, none => (.error AwsError.invalidArgument, connection)
  | some conn, some opts =>
    if opts.on_incoming_request.isNone then
      (.error AwsError.invalidArgument, connection)
    else
      match conn.server_data with
      | none => (.error AwsError.invalidState, connection)
      | some sd =>
        if sd.on_incoming_request.isSome then
          (.error AwsError.invalidState, connection)
        else
          (.ok (),
           some { conn with
                    user_data := opts.connection_user_data,
                    server_data := some { sd with
                                            on_incoming_request := opts.on_incoming_request,
                                            on_shutdown := opts.on_shutdown } })

/-- The fields of `struct aws_http_client_bootstrap` the client callbacks
touch; `connection` is an opaque pointer (`none` = not yet created). -/
structure HttpClientBootstrap where
  on_setup : Option Nat
  on_shutdown : Option Nat
  connection : Option Nat
  deriving DecidableEq, Repr

/-- Externally visible actions of the client bootstrap callbacks, in program
order: user callbacks invoked, channel shutdown requested, and the final
`aws_mem_release` of the bootstrap record. -/
inductive ClientEvent where
  | onSetup (connection_present : Bool) (error_code : Nat)
  | onShutdown (error_code : Nat)
  | channelShutdown (error_code : Nat)
  | releaseBootstrap
  deriving DecidableEq, Repr

/-- `s_client_bootstrap_on_channel_setup` (src/source/connection.c:587-650).
Inputs beyond the C parameters model the externals: `factory_ok` is whether
`s_connection_new` succeeds and `factory_err` the thread-local last error when
it fails.  The bootstrap contract (asserted fatally by the code) makes the
channel argument redundant: a channel is present iff `error_code = 0`.
Returns the surviving bootstrap record (`none` once freed) and the emitted
events. -/
def s_client_bootstrap_on_channel_setup (http_bootstrap : HttpClientBootstrap)
    (error_code : Nat) (factory_ok : Bool) (factory_err : Nat) :
    Option HttpClientBootstrap × List ClientEvent :=
  if error_code ≠ 0 then
    (none, [ClientEvent.onSetup false error_code, ClientEvent.releaseBootstrap])
  else if factory_ok then
    (some { http_bootstrap with connection := some 1, on_setup := none },
     [ClientEvent.onSetup true AWS_ERROR_SUCCESS])
  else
    (some http_bootstrap, [ClientEvent.channelShutdown factory_err])

/-- `s_client_bootstrap_on_channel_shutdown` (src/source/connection.c:653-694):
if `on_setup` is still set, setup never succeeded — a zero `error_code` is
coerced to `AWS_ERROR_UNKNOWN` and `on_setup(NULL, error_code)` is invoked;
otherwise `on_shutdown` (if provided) is invoked; the record is freed. -/
def s_client_bootstrap_on_channel_shutdown (http_bootstrap : HttpClientBootstrap)
    (error_code : Nat) : Option HttpClientBootstrap × List ClientEvent :=
  if http_bootstrap.on_setup.isSome then
    let ec := if error_code = 0 then AWS_ERROR_UNKNOWN else error_code
    (none, [ClientEvent.onSetup false ec, ClientEvent.releaseBootstrap])
  else if http_bootstrap.on_shutdown.isSome then
    (none, [ClientEvent.onShutdown error_code, ClientEvent.releaseBootstrap])
  else
    (none, [ClientEvent.releaseBootstrap])

/-- The two shapes of a client connect attempt that reaches the bootstrap
callbacks: the bootstrap reports an immediate failure (no channel, no later
shutdown), or a channel comes up (setup runs with `error_code = 0`, and the
channel's eventual shutdown invokes the shutdown callback once). -/
inductive ClientAttempt where
  | setupFailed (error_code : Nat)
  | channelUp (factory_ok : Bool) (factory_err : Nat) (shutdown_err : Nat)
  deriving DecidableEq, Repr

/-- Modelled from the spec: the client-bootstrap contract (spec §6.1, §4.7) —
the channel bootstrap lives in aws-c-io, outside this repository.  It invokes
the setup callback exactly once, with `(channel, 0)` or `(NULL, err ≠ 0)`;
in the channel case the shutdown callback is invoked exactly once after the
channel later shuts down, and never otherwise.  The trace of an attempt is
the concatenation of the events of the callbacks the contract fires, with the
bootstrap record state threaded through. -/
def clientAttemptTrace (http_bootstrap : HttpClientBootstrap) :
    ClientAttempt → List ClientEvent
  | ClientAttempt.setupFailed error_code =>
    (s_client_bootstrap_on_channel_setup http_bootstrap error_code false 0).2
  | ClientAttempt.channelUp factory_ok factory_err shutdown_err =>
    let r := s_client_bootstrap_on_channel_setup http_bootstrap 0 factory_ok factory_err
    match r.1 with
    | none => r.2
    | some bs => r.2 ++ (s_client_bootstrap_on_channel_shutdown bs shutdown_err).2

/-- Recognizes invocations of the user's setup callback. -/
def isSetupEvent : ClientEvent → Bool
  | ClientEvent.onSetup _ _ => true
  | _ => false

/-- Recognizes invocations of the user's shutdown callback. -/
def isShutdownCb : ClientEvent → Bool
  | ClientEvent.onShutdown _ => true
  | _ => false

/-- The synchronized state of `struct aws_http_server`. The registry models
`channel_to_connection_map` as an association list keyed by the channel
pointer value (Nat, `0` = `NULL`). -/
structure HttpServer where
  is_shutting_down : Bool
  registry : List (Nat × Nat)
  deriving DecidableEq, Repr

/-- Externally visible actions of the server-side paths. -/
inductive ServerEvent where
  | onIncomingConnection (connection_present : Bool) (error_code : Nat)
  | channelShutdown (channel : Nat) (error_code : Nat)
  | connectionRelease
  | lockAcquired
  | lockReleased
  | destroySocketListener
  deriving DecidableEq, Repr

/-- The `error:` epilogue of `s_server_bootstrap_on_accept_channel_setup`
(src/source/connection.c:366-384): a zero `error_code` picks up the
thread-local last error; `on_incoming_connection(NULL, error_code)` fires only
if the user callback has not run; the channel (if any) is shut down; the
connection (if any) is released. -/
def acceptSetupFail (server : HttpServer) (error_code : Nat) (last_error : Nat)
    (user_cb_invoked : Bool) (channel : Nat) (connection_present : Bool)
    (events : List ServerEvent) : HttpServer × List ServerEvent :=
  let ec := if error_code = 0 then last_error else error_code
  let ev1 := if user_cb_invoked then [] else [ServerEvent.onIncomingConnection false ec]
  let ev2 := if channel ≠ 0 then [ServerEvent.channelShutdown channel ec] else []
  let ev3 := if connection_present then [ServerEvent.connectionRelease] else []
  (server, events ++ ev1 ++ ev2 ++ ev3)

/-- `s_server_bootstrap_on_accept_channel_setup`
(src/source/connection.c:274-384).  External outcomes are inputs:
`conn_new` is the pointer returned by `s_connection_new` (`0` = failure, with
`conn_err` the last error), `put_fails`/`put_err` describe
`aws_hash_table_put`, and `user_configures` is whether the user's
`on_incoming_connection` callback leaves `server_data->on_incoming_request`
set when it returns. -/
def s_server_bootstrap_on_accept_channel_setup (server : HttpServer)
    (error_code : Nat) (channel : Nat) (conn_new : Nat) (conn_err : Nat)
    (put_fails : Bool) (put_err : Nat) (user_configures : Bool) :
    HttpServer × List ServerEvent :=
  if error_code ≠ 0 then
    acceptSetupFail server error_code 0 false channel false []
  else if conn_new = 0 then
    acceptSetupFail server 0 conn_err false channel false []
  else
    let error_code1 := if server.is_shutting_down then AWS_ERROR_HTTP_CONNECTION_CLOSED else 0
    let server1 :=
      if error_code1 = 0 && !put_fails then
        { server with registry := server.registry ++ [(channel, conn_new)] }
      else
        server
    if error_code1 ≠ 0 then
      acceptSetupFail server1 error_code1 0 false channel true []
    else if put_fails then
      acceptSetupFail server1 0 put_err false channel true []
    else
      let events := [ServerEvent.onIncomingConnection true AWS_ERROR_SUCCESS]
      if !user_configures then
        acceptSetupFail server1 0 AWS_ERROR_HTTP_REACTION_REQUIRED true channel true events
      else
        (server1, events)

/-- Recognizes invocations of the server's incoming-connection callback. -/
def isOnIncomingConnection : ServerEvent → Bool
  | ServerEvent.onIncomingConnection _ _ => true
  | _ => false

/-- `aws_http_server_release` (src/source/connection.c:540-583): a `NULL`
server returns immediately; otherwise, under the lock, the first call sets
`is_shutting_down` and requests channel shutdown (code
`AWS_ERROR_HTTP_CONNECTION_CLOSED`) on every channel in the registry, then —
after unlocking — asks the bootstrap to destroy the listening socket; a
repeat call observes the flag and returns after unlocking. -/
def aws_http_server_release (server : Option HttpServer) :
    Option HttpServer × List ServerEvent :=
  match server with
  | none => (none, [])
  | some s =>
    let already_shutting_down := s.is_shutting_down
    let s1 := { s with is_shutting_down := true }
    if already_shutting_down then
      (some s1, [ServerEvent.lockAcquired, ServerEvent.lockReleased])
    else
      (some s1,
       [ServerEvent.lockAcquired] ++
         s.registry.map
           (fun e => ServerEvent.channelShutdown e.1 AWS_ERROR_HTTP_CONNECTION_CLOSED) ++
         [ServerEvent.lockReleased, ServerEvent.destroySocketListener])

/-! ### Helper lemmas: `s_read_unsigned` -/

lemma le_foldl_digits (base : Nat) (hbase : 1 ≤ base) (l : List Nat) (val : Nat) :
    val ≤ l.foldl (fun acc c => acc * base + asciiToNum c) val := by
  induction l generalizing val with
  | nil => simp
  | cons c rest ih =>
    simp only [List.foldl_cons]
    exact le_trans
      (le_trans (Nat.le_mul_of_pos_right val hbase) (Nat.le_add_right _ _)) (ih _)

lemma readUnsignedLoop_cons (base c : Nat) (rest : List Nat) (val : Nat) :
    readUnsignedLoop base (c :: rest) val =
      if base ≤ asciiToNum c then
        .error AwsError.invalidArgument
      else if val * base % 2 ^ 64 < val then
        .error AwsError.overflowDetected
      else if (val * base % 2 ^ 64 + asciiToNum c) % 2 ^ 64 < val then
        .error AwsError.overflowDetected
      else
        readUnsignedLoop base rest ((val * base % 2 ^ 64 + asciiToNum c) % 2 ^ 64) :=
  rfl

lemma readUnsignedLoop_ok (base : Nat) (hbase : 1 ≤ base) (l : List Nat) (val : Nat)
    (hvalid : ∀ c ∈ l, asciiToNum c < base)
    (hfit : l.foldl (fun acc c => acc * base + asciiToNum c) val < 2 ^ 64) :
    readUnsignedLoop base l val =
      .ok (l.foldl (fun acc c => acc * base + asciiToNum c) val) := by
  induction l generalizing val with
  | nil => simp [readUnsignedLoop]
  | cons c rest ih =>
    have hc : asciiToNum c < base := hvalid c (List.mem_cons_self _ _)
    have hfit' : rest.foldl (fun acc c => acc * base + asciiToNum c)
        (val * base + asciiToNum c) < 2 ^ 64 := by
      simpa using hfit
    have hstep : val * base + asciiToNum c < 2 ^ 64 :=
      lt_of_le_of_lt (le_foldl_digits base hbase rest _) hfit'
    have h1 : val * base < 2 ^ 64 := lt_of_le_of_lt (Nat.le_add_right _ _) hstep
    have hle : val ≤ val * base := Nat.le_mul_of_pos_right val hbase
    rw [readUnsignedLoop_cons, if_neg (not_le.mpr hc), Nat.mod_eq_of_lt h1,
      if_neg (not_lt.mpr hle), Nat.mod_eq_of_lt hstep,
      if_neg (not_lt.mpr (le_trans hle (Nat.le_add_right _ _)))]
    simp only [List.foldl_cons]
    exact ih _ (fun d hd => hvalid d (List.mem_cons_of_mem _ hd)) hfit'

lemma readUnsignedLoop_append (base : Nat) (xs ys : List Nat) (val : Nat) :
    readUnsignedLoop base (xs ++ ys) val =
      match readUnsignedLoop base xs val with
      | .ok v => readUnsignedLoop base ys v
      | .error e => .error e := by
  induction xs generalizing val with
  | nil => simp [readUnsignedLoop]
  | cons c rest ih =>
    simp only [List.cons_append, readUnsignedLoop_cons]
    by_cases h1 : base ≤ asciiToNum c
    · rw [if_pos h1, if_pos h1]
    · rw [if_neg h1, if_neg h1]
      by_cases h2 : val * base % 2 ^ 64 < val
      · rw [if_pos h2, if_pos h2]
      · rw [if_neg h2, if_neg h2]
        by_cases h3 : (val * base % 2 ^ 64 + asciiToNum c) % 2 ^ 64 < val
        · rw [if_pos h3, if_pos h3]
        · rw [if_neg h3, if_neg h3]
          exact ih _

lemma readUnsignedLoop_invalid (base : Nat) (l : List Nat)
    (h : ∃ c ∈ l, base ≤ asciiToNum c) (val : Nat) :
    ∃ e, readUnsignedLoop base l val = .error e := by
  induction l generalizing val with
  | nil => simp at h
  | cons c rest ih =>
    by_cases h1 : base ≤ asciiToNum c
    · exact ⟨AwsError.invalidArgument, by rw [readUnsignedLoop_cons, if_pos h1]⟩
    · have hrest : ∃ c ∈ rest, base ≤ asciiToNum c := by
        rcases h with ⟨d, hd, hdv⟩
        rcases List.mem_cons.mp hd with rfl | hd'
        · exact absurd hdv h1
        · exact ⟨d, hd', hdv⟩
      by_cases h2 : val * base % 2 ^ 64 < val
      · exact ⟨AwsError.overflowDetected,
          by rw [readUnsignedLoop_cons, if_neg h1, if_pos h2]⟩
      · by_cases h3 : (val * base % 2 ^ 64 + asciiToNum c) % 2 ^ 64 < val
        · exact ⟨AwsError.overflowDetected,
            by rw [readUnsignedLoop_cons, if_neg h1, if_neg h2, if_pos h3]⟩
        · rcases ih hrest ((val * base % 2 ^ 64 + asciiToNum c) % 2 ^ 64) with ⟨e, he⟩
          exact ⟨e, by rw [readUnsignedLoop_cons, if_neg h1, if_neg h2, if_neg h3, he]⟩

lemma asciiToNum_out_of_range (c : Nat) (h : 256 ≤ c) : asciiToNum c = 255 := by
  have hlen : s_ascii_to_num_table.length = 256 := by decide
  exact List.getD_eq_default _ _ (by omega)

lemma s_read_unsigned_valid (base : Nat) (hbase : 1 ≤ base) (s : List Nat)
    (hne : s ≠ []) (hvalid : ∀ c ∈ s, asciiToNum c < base)
    (hfit : digitsValue base s < 2 ^ 64) :
    s_read_unsigned s base = .ok (digitsValue base s) := by
  have hlen : ¬ s.length = 0 := by simpa [List.length_eq_zero] using hne
  simp only [s_read_unsigned, hlen, if_false]
  exact readUnsignedLoop_ok base hbase s 0 hvalid hfit

lemma s_read_unsigned_invalid_char (base : Nat) (s : List Nat) (c : Nat)
    (hc : c ∈ s) (hbad : base ≤ asciiToNum c) (v : Nat) :
    s_read_unsigned s base ≠ .ok v := by
  have hlen : ¬ s.length = 0 := by
    rcases s with _ | _
    · simp at hc
    · simp
  rcases readUnsignedLoop_invalid base s ⟨c, hc, hbad⟩ 0 with ⟨e, he⟩
  simp [s_read_unsigned, hlen, he]

lemma s_read_unsigned_first_invalid (base : Nat) (pre : List Nat) (c : Nat)
    (suf : List Nat) (v : Nat) (hbad : base ≤ asciiToNum c)
    (hpre : readUnsignedLoop base pre 0 = .ok v) :
    s_read_unsigned (pre ++ c :: suf) base = .error AwsError.invalidArgument := by
  have hlen : ¬ (pre ++ c :: suf).length = 0 := by simp
  simp only [s_read_unsigned, hlen, if_false]
  rw [readUnsignedLoop_append, hpre]
  simp [readUnsignedLoop, hbad]

/-! ### Helper lemmas: `s_trim` -/

lemma rdropWhile_append_rtakeWhile (p : Nat → Bool) (l : List Nat) :
    List.rdropWhile p l ++ List.rtakeWhile p l = l := by
  simp only [List.rdropWhile, List.rtakeWhile]
  rw [← List.reverse_append, List.takeWhile_append_dropWhile, List.reverse_reverse]

lemma dropWhile_head_false (p : Nat → Bool) (l : List Nat) (a : Nat)
    (h : (l.dropWhile p).head? = some a) : p a = false := by
  induction l with
  | nil => simp [List.dropWhile] at h
  | cons c t ih =>
    rw [List.dropWhile_cons] at h
    by_cases hc : p c
    · exact ih (by simpa [hc] using h)
    · have hac : c = a := by simpa [hc] using h
      subst hac
      simpa using hc

lemma trim_head_false (p : Nat → Bool) (l : List Nat) (a : Nat)
    (h : (List.rdropWhile p (l.dropWhile p)).head? = some a) : p a = false := by
  rcases htrim : List.rdropWhile p (l.dropWhile p) with _ | ⟨b, rest⟩
  · rw [htrim] at h
    simp at h
  · rw [htrim] at h
    have hba : b = a := by simpa using h
    subst hba
    have hhead : (l.dropWhile p).head? = some b := by
      rw [← rdropWhile_append_rtakeWhile p (l.dropWhile p), htrim]
      rfl
    exact dropWhile_head_false p l b hhead

lemma dropWhile_rdropWhile_dropWhile (p : Nat → Bool) (l : List Nat) :
    (List.rdropWhile p (l.dropWhile p)).dropWhile p =
      List.rdropWhile p (l.dropWhile p) := by
  rcases htrim : List.rdropWhile p (l.dropWhile p) with _ | ⟨b, rest⟩
  · simp
  · have hb : p b = false := by
      apply trim_head_false p l b
      rw [htrim]
      rfl
    rw [List.dropWhile_cons, hb]
    simp

/-! ### Claim theorems: string utilities -/

/-- C2 (code_bug evidence): the input `"23058430092136939520"` is a string of
valid base-10 digits whose value `2^64 + 2^62` exceeds `2^64 - 1`, yet
`aws_strutil_read_unsigned_num` returns success with the wrapped value
`2^62`: multiplying `2^61` by 10 wraps modulo `2^64` to `2^62`, which is not
below the previous value, so the code's `val < prev_val` wrap check misses
the overflow instead of failing with overflow-detected. -/
theorem C2_overflow_escapes_wrap_check :
    ((asciiOf "23058430092136939520").all (fun c => decide (asciiToNum c < 10))) = true ∧
    18446744073709551615 < digitsValue 10 (asciiOf "23058430092136939520") ∧
    aws_strutil_read_unsigned_num (asciiOf "23058430092136939520") =
      .ok 4611686018427387904 :=
  ⟨by decide, by decide, by decide⟩

/-- C3 (counterexample): the claim that any input containing a character
outside the base's digit set fails with invalid-argument is false: on
`"18446744073709551616X"` the scan detects overflow on the digits before ever
reaching `'X'`, so the parse fails with overflow-detected instead. -/
theorem C3_invalid_char_not_invalid_argument :
    aws_strutil_read_unsigned_num (asciiOf "18446744073709551616X") =
      .error AwsError.overflowDetected ∧
    AwsError.overflowDetected ≠ AwsError.invalidArgument :=
  ⟨by decide, by decide⟩

/-- C3 (amended): for every non-empty byte string of valid digits of the base
whose value is at most `2^64 - 1`, `read_unsigned_num` (base 10) and
`read_unsigned_hex` (base 16) succeed with exactly that value; valid digits
are `'0'..'9'` and, for base 16, upper- and lowercase `'A'..'F'`/`'a'..'f'`
(e.g. `"deadBEEF"` parses to `0xDEADBEEF`); an empty input fails with
invalid-argument; an input containing a character outside the base's digit
set never succeeds, and fails with invalid-argument whenever the digits
before the first such character pass the overflow checks. -/
theorem C3_read_unsigned_correct :
    (∀ s, s ≠ [] → (∀ c ∈ s, asciiToNum c < 10) → digitsValue 10 s < 2 ^ 64 →
      aws_strutil_read_unsigned_num s = .ok (digitsValue 10 s)) ∧
    (∀ s, s ≠ [] → (∀ c ∈ s, asciiToNum c < 16) → digitsValue 16 s < 2 ^ 64 →
      aws_strutil_read_unsigned_hex s = .ok (digitsValue 16 s)) ∧
    (∀ c, asciiToNum c < 16 →
      (48 ≤ c ∧ c ≤ 57 ∧ asciiToNum c = c - 48) ∨
      (65 ≤ c ∧ c ≤ 70 ∧ asciiToNum c = c - 55) ∨
      (97 ≤ c ∧ c ≤ 102 ∧ asciiToNum c = c - 87)) ∧
    aws_strutil_read_unsigned_hex (asciiOf "deadBEEF") = .ok 0xDEADBEEF ∧
    aws_strutil_read_unsigned_num [] = .error AwsError.invalidArgument ∧
    aws_strutil_read_unsigned_hex [] = .error AwsError.invalidArgument ∧
    (∀ s c v, c ∈ s → 10 ≤ asciiToNum c →
      aws_strutil_read_unsigned_num s ≠ .ok v) ∧
    (∀ s c v, c ∈ s → 16 ≤ asciiToNum c →
      aws_strutil_read_unsigned_hex s ≠ .ok v) ∧
    (∀ pre c suf v, 10 ≤ asciiToNum c → readUnsignedLoop 10 pre 0 = .ok v →
      aws_strutil_read_unsigned_num (pre ++ c :: suf) =
        .error AwsError.invalidArgument) ∧
    (∀ pre c suf v, 16 ≤ asciiToNum c → readUnsignedLoop 16 pre 0 = .ok v →
      aws_strutil_read_unsigned_hex (pre ++ c :: suf) =
        .error AwsError.invalidArgument) := by
  refine ⟨?_, ?_, ?_, by decide, by decide, by decide, ?_, ?_, ?_, ?_⟩
  · exact fun s h1 h2 h3 => s_read_unsigned_valid 10 (by omega) s h1 h2 h3
  · exact fun s h1 h2 h3 => s_read_unsigned_valid 16 (by omega) s h1 h2 h3
  · have hb : ∀ c < 256, asciiToNum c < 16 →
        (48 ≤ c ∧ c ≤ 57 ∧ asciiToNum c = c - 48) ∨
        (65 ≤ c ∧ c ≤ 70 ∧ asciiToNum c = c - 55) ∨
        (97 ≤ c ∧ c ≤ 102 ∧ asciiToNum c = c - 87) := by decide
    intro c h
    rcases lt_or_ge c 256 with hc | hc
    · exact hb c hc h
    · rw [asciiToNum_out_of_range c hc] at h
      omega
  · exact fun s c v hc hbad => s_read_unsigned_invalid_char 10 s c hc hbad v
  · exact fun s c v hc hbad => s_read_unsigned_invalid_char 16 s c hc hbad v
  · exact fun pre c suf v hbad hpre =>
      s_read_unsigned_first_invalid 10 pre c suf v hbad hpre
  · exact fun pre c suf v hbad hpre =>
      s_read_unsigned_first_invalid 16 pre c suf v hbad hpre

/-- Witness for C3: the amended theorem applied at concrete inputs — `"42"`
parses to 42 in base 10, and `"4X"` (an invalid character after clean digits)
fails with invalid-argument. -/
theorem C3_read_unsigned_correct_witness :
    aws_strutil_read_unsigned_num [52, 50] = .ok (digitsValue 10 [52, 50]) ∧
    aws_strutil_read_unsigned_num [52, 88] = .error AwsError.invalidArgument := by
  refine ⟨C3_read_unsigned_correct.1 [52, 50] (by decide) (by decide) (by decide), ?_⟩
  have h := C3_read_unsigned_correct.2.2.2.2.2.2.2.2.1 [52] 88 [] 4
    (by decide) (by decide)
  simpa using h

/-- C4: `trim_http_whitespace` removes exactly the leading and trailing bytes
in `{SP (32), HT (9)}` — the input splits as whitespace ++ result ++
whitespace and the result neither starts nor ends with such a byte — and it
is idempotent. -/
theorem C4_trim_exact_and_idempotent (s : List Nat) :
    (∃ pre suf, s = pre ++ aws_strutil_trim_http_whitespace s ++ suf ∧
      (∀ c ∈ pre, c = 32 ∨ c = 9) ∧ (∀ c ∈ suf, c = 32 ∨ c = 9)) ∧
    (∀ c, (aws_strutil_trim_http_whitespace s).head? = some c →
      ¬(c = 32 ∨ c = 9)) ∧
    (∀ c, (aws_strutil_trim_http_whitespace s).getLast? = some c →
      ¬(c = 32 ∨ c = 9)) ∧
    aws_strutil_trim_http_whitespace (aws_strutil_trim_http_whitespace s) =
      aws_strutil_trim_http_whitespace s := by
  have hws : ∀ c, s_http_whitespace_table c = true ↔ (c = 32 ∨ c = 9) := by
    intro c
    simp [s_http_whitespace_table]
  refine ⟨?_, ?_, ?_, ?_⟩
  · refine ⟨s.takeWhile s_http_whitespace_table,
      List.rtakeWhile s_http_whitespace_table (s.dropWhile s_http_whitespace_table),
      ?_, ?_, ?_⟩
    · show s = _ ++ List.rdropWhile _ _ ++ _
      rw [List.append_assoc, rdropWhile_append_rtakeWhile,
        List.takeWhile_append_dropWhile]
    · intro c hc
      exact (hws c).mp (List.mem_takeWhile_imp hc)
    · intro c hc
      exact (hws c).mp (List.mem_rtakeWhile_imp hc)
  · intro c hc
    have := trim_head_false s_http_whitespace_table s c hc
    intro habs
    rw [(hws c).mpr habs] at this
    cases this
  · intro c hc
    have hne : List.rdropWhile s_http_whitespace_table
        (s.dropWhile s_http_whitespace_table) ≠ [] := by
      intro h
      change List.rdropWhile _ _ = [] at h
      rw [show aws_strutil_trim_http_whitespace s =
        List.rdropWhile s_http_whitespace_table
          (s.dropWhile s_http_whitespace_table) from rfl, h] at hc
      simp at hc
    have hlast := List.rdropWhile_last_not s_http_whitespace_table
      (s.dropWhile s_http_whitespace_table) hne
    have hcval : (List.rdropWhile s_http_whitespace_table
        (s.dropWhile s_http_whitespace_table)).getLast hne = c := by
      have := List.getLast?_eq_getLast _ hne
      rw [show aws_strutil_trim_http_whitespace s =
        List.rdropWhile s_http_whitespace_table
          (s.dropWhile s_http_whitespace_table) from rfl] at hc
      rw [this] at hc
      exact Option.some.inj hc
    intro habs
    rw [hcval, (hws c).mpr habs] at hlast
    exact hlast rfl
  · show List.rdropWhile _ ((List.rdropWhile _ (s.dropWhile _)).dropWhile _) = _
    rw [dropWhile_rdropWhile_dropWhile, List.rdropWhile_idempotent]
    rfl

/-- Witness for C4: the theorem applied at the spec's example input
`" \tab \t "`, whose trim is `"ab"`. -/
theorem C4_trim_witness :
    aws_strutil_trim_http_whitespace (asciiOf " \tab \t ") = asciiOf "ab" ∧
    aws_strutil_trim_http_whitespace
        (aws_strutil_trim_http_whitespace (asciiOf " \tab \t ")) =
      aws_strutil_trim_http_whitespace (asciiOf " \tab \t ") := by
  have h := C4_trim_exact_and_idempotent (asciiOf " \tab \t ")
  exact ⟨by decide, h.2.2.2⟩

/-! ### Claim theorems: connection core -/

/-- C5: the factory's version determination maps ALPN `"http/1.1"` to 1.1 and
`"h2"` to 2; any other protocol string — empty or unrecognized — yields 1.1,
and without TLS the version is 1.1 unconditionally. -/
theorem C5_alpn_version_mapping (p : List Nat) :
    s_connection_determine_version false p = AwsHttpVersion.http1_1 ∧
    s_connection_determine_version true [] = AwsHttpVersion.http1_1 ∧
    s_connection_determine_version true (asciiOf "http/1.1") =
      AwsHttpVersion.http1_1 ∧
    s_connection_determine_version true (asciiOf "h2") = AwsHttpVersion.http2 ∧
    (s_connection_determine_version true p = AwsHttpVersion.http1_1 ∨
      p = asciiOf "h2") := by
  refine ⟨rfl, by decide, by decide, by decide, ?_⟩
  by_cases h2 : p = asciiOf "h2"
  · exact Or.inr h2
  · left
    have h2' : p ≠ s_alpn_protocol_http_2 := h2
    unfold s_connection_determine_version
    by_cases hlen : p.length ≠ 0
    · by_cases h11 : p = s_alpn_protocol_http_1_1
      · simp [hlen, h11]
      · simp [hlen, h11, h2']
    · simp [hlen]

/-- C6: `release` decrements the refcount; iff the pre-decrement value was 1
it requests channel shutdown with the success code and releases the channel
hold, each exactly once; otherwise only the refcount changes. -/
theorem C6_connection_release_effects (c : HttpConnection) :
    (aws_http_connection_release c).1.refcount = c.refcount - 1 ∧
    (aws_http_connection_release c).1 = { c with refcount := c.refcount - 1 } ∧
    ((aws_http_connection_release c).2 =
      if c.refcount = 1 then
        [ChannelOp.shutdown AWS_ERROR_SUCCESS, ChannelOp.releaseHold]
      else []) ∧
    ((aws_http_connection_release c).2.count (ChannelOp.shutdown AWS_ERROR_SUCCESS) =
      if c.refcount = 1 then 1 else 0) ∧
    ((aws_http_connection_release c).2.count ChannelOp.releaseHold =
      if c.refcount = 1 then 1 else 0) := by
  unfold aws_http_connection_release
  by_cases h : c.refcount = 1 <;>
    simp [h, List.count_cons, List.count_nil]

/-- C7: `configure_server` fails with invalid-argument when the connection,
the options, or `on_incoming_request` is missing, with invalid-state on a
client connection (no `server_data`) or an already-configured connection,
and on success installs both callbacks; every failure leaves the connection
unchanged. -/
theorem C7_configure_server_contract (conn : HttpConnection)
    (opts : ServerConnectionOptions) :
    (∀ o, aws_http_connection_configure_server none o =
      (.error AwsError.invalidArgument, none)) ∧
    (aws_http_connection_configure_server (some conn) none =
      (.error AwsError.invalidArgument, some conn)) ∧
    (opts.on_incoming_request = none →
      aws_http_connection_configure_server (some conn) (some opts) =
        (.error AwsError.invalidArgument, some conn)) ∧
    (opts.on_incoming_request.isSome = true → conn.server_data = none →
      aws_http_connection_configure_server (some conn) (some opts) =
        (.error AwsError.invalidState, some conn)) ∧
    (∀ sd, opts.on_incoming_request.isSome = true → conn.server_data = some sd →
      sd.on_incoming_request.isSome = true →
      aws_http_connection_configure_server (some conn) (some opts) =
        (.error AwsError.invalidState, some conn)) ∧
    (∀ sd, opts.on_incoming_request.isSome = true → conn.server_data = some sd →
      sd.on_incoming_request = none →
      aws_http_connection_configure_server (some conn) (some opts) =
        (.ok (),
         some { conn with
                  user_data := opts.connection_user_data,
                  server_data := some { sd with
                                          on_incoming_request := opts.on_incoming_request,
                                          on_shutdown := opts.on_shutdown } })) ∧
    (∀ e, (aws_http_connection_configure_server (some conn) (some opts)).1 =
        .error e →
      (aws_http_connection_configure_server (some conn) (some opts)).2 =
        some conn) := by
  refine ⟨fun o => rfl, rfl, ?_, ?_, ?_, ?_, ?_⟩
  · intro h
    simp [aws_http_connection_configure_server, h]
  · intro h1 h2
    obtain ⟨x, hx⟩ := Option.isSome_iff_exists.mp h1
    simp [aws_http_connection_configure_server, hx, h2]
  · intro sd h1 h2 h3
    obtain ⟨x, hx⟩ := Option.isSome_iff_exists.mp h1
    simp [aws_http_connection_configure_server, hx, h2, h3]
  · intro sd h1 h2 h3
    obtain ⟨x, hx⟩ := Option.isSome_iff_exists.mp h1
    simp [aws_http_connection_configure_server, hx, h2, h3]
  · intro e h
    rcases hoir : opts.on_incoming_request with _ | x
    · simp [aws_http_connection_configure_server, hoir]
    · rcases hsd : conn.server_data with _ | sd
      · simp [aws_http_connection_configure_server, hoir, hsd]
      · rcases hsir : sd.on_incoming_request with _ | y
        · rw [show aws_http_connection_configure_server (some conn) (some opts) =
            aws_http_connection_configure_server (some conn) (some opts) from rfl] at h
          simp [aws_http_connection_configure_server, hoir, hsd, hsir] at h
        · simp [aws_http_connection_configure_server, hoir, hsd, hsir]

/-- Witness for C7: configuring a fresh server connection succeeds and
installs the callbacks; configuring a client connection fails with
invalid-state and leaves it untouched. -/
theorem C7_configure_server_contract_witness :
    aws_http_connection_configure_server
        (some ⟨1, 7, false, some ⟨none, none⟩⟩) (some ⟨5, some 11, some 12⟩) =
      (.ok (), some ⟨1, 5, false, some ⟨some 11, some 12⟩⟩) ∧
    aws_http_connection_configure_server
        (some ⟨1, 7, true, none⟩) (some ⟨5, some 11, some 12⟩) =
      (.error AwsError.invalidState, some ⟨1, 7, true, none⟩) := by
  have h1 := (C7_configure_server_contract ⟨1, 7, false, some ⟨none, none⟩⟩
    ⟨5, some 11, some 12⟩).2.2.2.2.2.1 ⟨none, none⟩ (by decide) rfl rfl
  have h2 := (C7_configure_server_contract ⟨1, 7, true, none⟩
    ⟨5, some 11, some 12⟩).2.2.2.1 (by decide) rfl
  exact ⟨h1, h2⟩

/-- C10: on success `configure_server` overwrites the connection's
`user_data` with `options->connection_user_data`; on failure `user_data`
(indeed the whole connection) is untouched. -/
theorem C10_configure_server_overwrites_user_data (conn : HttpConnection)
    (opts : ServerConnectionOptions) :
    (∀ sd, opts.on_incoming_request.isSome = true → conn.server_data = some sd →
      sd.on_incoming_request = none →
      ∃ c1, (aws_http_connection_configure_server (some conn) (some opts)).2 =
          some c1 ∧
        c1.user_data = opts.connection_user_data) ∧
    (∀ c1, (aws_http_connection_configure_server (some conn) (some opts)).1 =
        .ok () →
      (aws_http_connection_configure_server (some conn) (some opts)).2 =
        some c1 →
      c1.user_data = opts.connection_user_data) ∧
    (∀ e, (aws_http_connection_configure_server (some conn) (some opts)).1 =
        .error e →
      (aws_http_connection_configure_server (some conn) (some opts)).2 =
        some conn) := by
  refine ⟨?_, ?_, ?_⟩
  · intro sd h1 h2 h3
    obtain ⟨x, hx⟩ := Option.isSome_iff_exists.mp h1
    refine ⟨{ conn with
                user_data := opts.connection_user_data,
                server_data := some { sd with
                                        on_incoming_request := some x,
                                        on_shutdown := opts.on_shutdown } },
      ?_, rfl⟩
    simp [aws_http_connection_configure_server, hx, h2, h3]
  · intro c1 hok hpost
    rcases hoir : opts.on_incoming_request with _ | x
    · simp [aws_http_connection_configure_server, hoir] at hok
    · rcases hsd : conn.server_data with _ | sd
      · simp [aws_http_connection_configure_server, hoir, hsd] at hok
      · rcases hsir : sd.on_incoming_request with _ | y
        · simp [aws_http_connection_configure_server, hoir, hsd, hsir] at hpost
          rw [← hpost]
        · simp [aws_http_connection_configure_server, hoir, hsd, hsir] at hok
  · intro e h
    rcases hoir : opts.on_incoming_request with _ | x
    · simp [aws_http_connection_configure_server, hoir]
    · rcases hsd : conn.server_data with _ | sd
      · simp [aws_http_connection_configure_server, hoir, hsd]
      · rcases hsir : sd.on_incoming_request with _ | y
        · simp [aws_http_connection_configure_server, hoir, hsd, hsir] at h
        · simp [aws_http_connection_configure_server, hoir, hsd, hsir]

/-- Witness for C10: user_data 7 installed at connect time is replaced by the
options' value 5 on success. -/
theorem C10_configure_server_overwrites_user_data_witness :
    ∃ c1, (aws_http_connection_configure_server
        (some ⟨1, 7, false, some ⟨none, none⟩⟩)
        (some ⟨5, some 11, some 12⟩)).2 = some c1 ∧
      c1.user_data = (5 : Nat) := by
  have h := (C10_configure_server_overwrites_user_data
    ⟨1, 7, false, some ⟨none, none⟩⟩ ⟨5, some 11, some 12⟩).1
    ⟨none, none⟩ (by decide) rfl rfl
  exact h

/-- C1: for every client connect attempt that reaches the bootstrap callbacks
(with `on_setup` and `on_shutdown` registered, under the bootstrap contract),
exactly one terminal setup event fires — `on_setup(NULL, err ≠ 0)` or
`on_setup(conn, 0)`; `on_shutdown` fires exactly once, strictly after setup,
iff setup succeeded; and in the shutdown-after-failed-setup path a zero
channel error code is coerced to `AWS_ERROR_UNKNOWN` before
`on_setup(NULL, error)` is invoked. -/
theorem C1_client_setup_exactly_once (bs : HttpClientBootstrap)
    (attempt : ClientAttempt)
    (hsetup : bs.on_setup.isSome = true)
    (hshutdown : bs.on_shutdown.isSome = true)
    (hwf : ∀ ec, attempt = ClientAttempt.setupFailed ec → ec ≠ 0) :
    ((clientAttemptTrace bs attempt).countP isSetupEvent = 1) ∧
    (∀ p e, ClientEvent.onSetup p e ∈ clientAttemptTrace bs attempt →
      (p = false ∧ e ≠ 0) ∨ (p = true ∧ e = 0)) ∧
    ((ClientEvent.onSetup true 0 ∈ clientAttemptTrace bs attempt) ↔
      (clientAttemptTrace bs attempt).countP isShutdownCb = 1) ∧
    ((ClientEvent.onSetup true 0 ∉ clientAttemptTrace bs attempt) →
      (clientAttemptTrace bs attempt).countP isShutdownCb = 0) ∧
    (∀ n, ((clientAttemptTrace bs attempt).take n).countP isShutdownCb ≤
      ((clientAttemptTrace bs attempt).take n).countP isSetupEvent) ∧
    (∀ fe, attempt = ClientAttempt.channelUp false fe 0 →
      ClientEvent.onSetup false AWS_ERROR_UNKNOWN ∈ clientAttemptTrace bs attempt) := by
  rcases attempt with ec | ⟨fok, ferr, serr⟩
  · have hec : ec ≠ 0 := hwf ec rfl
    have htr : clientAttemptTrace bs (ClientAttempt.setupFailed ec) =
        [ClientEvent.onSetup false ec, ClientEvent.releaseBootstrap] := by
      simp [clientAttemptTrace, s_client_bootstrap_on_channel_setup, hec]
    rw [htr]
    refine ⟨by simp [isSetupEvent], ?_, ?_, ?_, ?_, ?_⟩
    · intro p e hmem
      simp only [List.mem_cons, List.not_mem_nil, or_false,
        ClientEvent.onSetup.injEq] at hmem
      rcases hmem with hmem | hmem
      · rcases hmem with ⟨hp, he⟩
        exact Or.inl ⟨hp, he ▸ hec⟩
      · cases hmem
    · simp [isShutdownCb, hec]
    · intro _
      simp [isShutdownCb]
    · intro n
      rcases n with _ | _ | n <;> simp [isShutdownCb, isSetupEvent]
    · intro fe h
      simp at h
  · rcases fok with _ | _
    · -- factory failure: setup emits a channel-shutdown request; the later
      -- channel-shutdown callback finds on_setup still set.
      have htr : clientAttemptTrace bs (ClientAttempt.channelUp false ferr serr) =
          [ClientEvent.channelShutdown ferr,
           ClientEvent.onSetup false (if serr = 0 then AWS_ERROR_UNKNOWN else serr),
           ClientEvent.releaseBootstrap] := by
        simp [clientAttemptTrace, s_client_bootstrap_on_channel_setup,
          s_client_bootstrap_on_channel_shutdown, hsetup]
      rw [htr]
      have hne : (if serr = 0 then AWS_ERROR_UNKNOWN else serr) ≠ 0 := by
        by_cases hs : serr = 0
        · simp [hs, AWS_ERROR_UNKNOWN]
        · simp [hs]
      refine ⟨by simp [isSetupEvent], ?_, ?_, ?_, ?_, ?_⟩
      · intro p e hmem
        simp only [List.mem_cons, List.not_mem_nil, or_false,
          ClientEvent.onSetup.injEq] at hmem
        rcases hmem with hmem | hmem | hmem
        · cases hmem
        · rcases hmem with ⟨hp, he⟩
          exact Or.inl ⟨hp, he ▸ hne⟩
        · cases hmem
      · simp [isShutdownCb]
      · intro _
        simp [isShutdownCb]
      · intro n
        rcases n with _ | _ | _ | n <;> simp [isShutdownCb, isSetupEvent]
      · intro fe h
        simp only [ClientAttempt.channelUp.injEq] at h
        rcases h with ⟨-, -, hs⟩
        simp [hs]
    · -- factory success: setup succeeds, later shutdown routes to on_shutdown.
      have htr : clientAttemptTrace bs (ClientAttempt.channelUp true ferr serr) =
          [ClientEvent.onSetup true 0, ClientEvent.onShutdown serr,
           ClientEvent.releaseBootstrap] := by
        simp [clientAttemptTrace, s_client_bootstrap_on_channel_setup,
          s_client_bootstrap_on_channel_shutdown, hshutdown, AWS_ERROR_SUCCESS]
      rw [htr]
      refine ⟨by simp [isSetupEvent], ?_, ?_, ?_, ?_, ?_⟩
      · intro p e hmem
        simp only [List.mem_cons, List.not_mem_nil, or_false,
          ClientEvent.onSetup.injEq] at hmem
        rcases hmem with hmem | hmem | hmem
        · rcases hmem with ⟨hp, he⟩
          exact Or.inr ⟨hp, he⟩
        · cases hmem
        · cases hmem
      · simp [isShutdownCb]
      · intro hmem
        simp at hmem
      · intro n
        rcases n with _ | _ | _ | n <;> simp [isShutdownCb, isSetupEvent]
      · intro fe h
        simp at h

/-- Witness for C1: the happy path — setup with a channel, factory succeeds,
channel later shuts down with error 7 — fires exactly one setup event. -/
theorem C1_client_setup_exactly_once_witness :
    (clientAttemptTrace ⟨some 1, some 2, none⟩
        (ClientAttempt.channelUp true 0 7)).countP isSetupEvent = 1 ∧
    ClientEvent.onSetup true 0 ∈
      clientAttemptTrace ⟨some 1, some 2, none⟩ (ClientAttempt.channelUp true 0 7) := by
  have h := C1_client_setup_exactly_once ⟨some 1, some 2, none⟩
    (ClientAttempt.channelUp true 0 7) (by decide) (by decide)
    (fun ec h => by simp at h)
  exact ⟨h.1, by decide⟩

/-- C8: in the server accept-setup path, if the user's
`on_incoming_connection(connection, 0)` callback returns with
`on_incoming_request` still unset, the code raises reaction-required, shuts
the channel down with that error code and releases the connection, and does
not invoke `on_incoming_connection` a second time. -/
theorem C8_unconfigured_server_connection (server : HttpServer)
    (channel conn_new : Nat)
    (hsd : server.is_shutting_down = false) (hch : channel ≠ 0)
    (hcn : conn_new ≠ 0) :
    s_server_bootstrap_on_accept_channel_setup server 0 channel conn_new 0
        false 0 false =
      ({ server with registry := server.registry ++ [(channel, conn_new)] },
       [ServerEvent.onIncomingConnection true AWS_ERROR_SUCCESS,
        ServerEvent.channelShutdown channel AWS_ERROR_HTTP_REACTION_REQUIRED,
        ServerEvent.connectionRelease]) ∧
    ((s_server_bootstrap_on_accept_channel_setup server 0 channel conn_new 0
        false 0 false).2.countP isOnIncomingConnection = 1) := by
  have h : s_server_bootstrap_on_accept_channel_setup server 0 channel conn_new 0
      false 0 false =
      ({ server with registry := server.registry ++ [(channel, conn_new)] },
       [ServerEvent.onIncomingConnection true AWS_ERROR_SUCCESS,
        ServerEvent.channelShutdown channel AWS_ERROR_HTTP_REACTION_REQUIRED,
        ServerEvent.connectionRelease]) := by
    simp [s_server_bootstrap_on_accept_channel_setup, acceptSetupFail, hsd, hch,
      hcn, AWS_ERROR_SUCCESS]
  refine ⟨h, ?_⟩
  rw [h]
  simp [isOnIncomingConnection]

/-- Witness for C8: a live server with an empty registry, channel 1,
connection 2, user callback that does not configure. -/
theorem C8_unconfigured_server_connection_witness :
    s_server_bootstrap_on_accept_channel_setup ⟨false, []⟩ 0 1 2 0
        false 0 false =
      (⟨false, [(1, 2)]⟩,
       [ServerEvent.onIncomingConnection true AWS_ERROR_SUCCESS,
        ServerEvent.channelShutdown 1 AWS_ERROR_HTTP_REACTION_REQUIRED,
        ServerEvent.connectionRelease]) :=
  (C8_unconfigured_server_connection ⟨false, []⟩ 1 2 rfl (by decide) (by decide)).1

/-- C9: `server_release` is idempotent — a null server is a no-op; the first
call sets `is_shutting_down` and, between acquiring and releasing the lock,
requests channel shutdown with connection-closed on every registry channel,
then destroys the listening socket; any call on a server already shutting
down only takes and drops the lock, changing nothing. -/
theorem C9_server_release_idempotent (s : HttpServer) (x : Option HttpServer) :
    (aws_http_server_release none = (none, [])) ∧
    (s.is_shutting_down = false →
      aws_http_server_release (some s) =
        (some { s with is_shutting_down := true },
         [ServerEvent.lockAcquired] ++
           s.registry.map
             (fun e => ServerEvent.channelShutdown e.1
               AWS_ERROR_HTTP_CONNECTION_CLOSED) ++
           [ServerEvent.lockReleased, ServerEvent.destroySocketListener])) ∧
    (s.is_shutting_down = true →
      aws_http_server_release (some s) =
        (some s, [ServerEvent.lockAcquired, ServerEvent.lockReleased])) ∧
    ((aws_http_server_release (aws_http_server_release x).1).1 =
      (aws_http_server_release x).1) ∧
    (∀ ev ∈ (aws_http_server_release (aws_http_server_release x).1).2,
      ev = ServerEvent.lockAcquired ∨ ev = ServerEvent.lockReleased) := by
  refine ⟨rfl, ?_, ?_, ?_, ?_⟩
  · intro h
    simp [aws_http_server_release, h]
  · intro h
    cases s
    simp_all [aws_http_server_release]
  · rcases x with _ | xs
    · simp [aws_http_server_release]
    · by_cases hf : xs.is_shutting_down <;>
        simp [aws_http_server_release, hf]
  · intro ev hev
    rcases x with _ | xs
    · simp [aws_http_server_release] at hev
    · by_cases hf : xs.is_shutting_down <;>
        simp [aws_http_server_release, hf] at hev <;>
        rcases hev with h | h <;> simp [h]

/-- Witness for C9: a first release of a live server with one registered
channel shuts that channel down and destroys the listener; a second-style
call (flag already set) only takes and drops the lock. -/
theorem C9_server_release_idempotent_witness :
    aws_http_server_release (some ⟨false, [(3, 4)]⟩) =
      (some ⟨true, [(3, 4)]⟩,
       [ServerEvent.lockAcquired,
        ServerEvent.channelShutdown 3 AWS_ERROR_HTTP_CONNECTION_CLOSED,
        ServerEvent.lockReleased, ServerEvent.destroySocketListener]) ∧
    aws_http_server_release (some ⟨true, [(3, 4)]⟩) =
      (some ⟨true, [(3, 4)]⟩,
       [ServerEvent.lockAcquired, ServerEvent.lockReleased]) := by
  have h1 := (C9_server_release_idempotent ⟨false, [(3, 4)]⟩ none).2.1 rfl
  have h2 := (C9_server_release_idempotent ⟨true, [(3, 4)]⟩ none).2.2.1 rfl
  exact ⟨by simpa using h1, h2⟩

end AwsCHttp
